import Mathlib

/-!
Verification of the schema-driven record generator of `api-mock-demo`
(`src/App.vue`): schema parsing, value synthesis, record generation,
OpenAPI-schema reduction and the MSW handler renderer, shallowly embedded
from the source's JavaScript semantics.
-/

namespace ApiMock

/-- JavaScript runtime values as they occur in this program: results of
`JSON.parse` / `yaml.load` plus `undefined` from property access.
Numbers are modelled as integers (the program only manipulates integer
literals and integer-valued counts). -/
inductive Js where
  | undefined : Js
  | null : Js
  | bool : Bool → Js
  | num : Int → Js
  | str : String → Js
  | arr : List Js → Js
  | obj : List (String × Js) → Js

/-- JavaScript truthiness of a value (`!v` is its negation). -/
def jsTruthy : Js → Bool
  | .undefined => false
  | .null => false
  | .bool b => b
  | .num n => n != 0
  | .str s => !s.isEmpty
  | .arr _ => true
  | .obj _ => true

/-- A value is not `null` and not `undefined` (i.e. member access on it
cannot raise a `TypeError`). -/
def jsNotNullish : Js → Bool
  | .undefined => false
  | .null => false
  | _ => true

/-- Lookup of a key among an object's fields; `undefined` when absent. -/
def objGet (fs : List (String × Js)) (k : String) : Js :=
  match fs.find? (fun p => p.1 == k) with
  | some p => p.2
  | none => .undefined

/-- A key made of decimal digits only, read as an element index. -/
def decKey? (k : String) : Option Nat :=
  if k.data.isEmpty then none
  else if k.data.all Char.isDigit then
    some (k.data.foldl (fun acc c => acc * 10 + (c.toNat - '0'.toNat)) 0)
  else none

/-- Property access `v[k]` in the cases where it cannot throw (the source
only performs plain access on values already known truthy, and `?.` access
otherwise; both agree with this total function there). Arrays and strings
expose their elements under decimal-index keys, as in JavaScript. -/
def jsGet : Js → String → Js
  | .undefined, _ => .undefined
  | .null, _ => .undefined
  | .bool _, _ => .undefined
  | .num _, _ => .undefined
  | .str s, k =>
    match decKey? k with
    | some i =>
      match s.data.get? i with
      | some c => .str (String.singleton c)
      | none => .undefined
    | none => .undefined
  | .arr xs, k =>
    match decKey? k with
    | some i => (xs.get? i).getD .undefined
    | none => .undefined
  | .obj fs, k => objGet fs k

/-- Own enumerable keys of a value, total version (used below through
`objKeys`, which adds the `TypeError` raised on `null`/`undefined`). -/
def jsKeys : Js → List String
  | .obj fs => fs.map Prod.fst
  | .arr xs => (List.range xs.length).map Nat.repr
  | .str s => (List.range s.data.length).map Nat.repr
  | _ => []

/-- `Object.keys(v)`: raises `TypeError` on `null`/`undefined`, otherwise
lists the own enumerable keys. -/
def objKeys (v : Js) : Except String (List String) :=
  if jsNotNullish v then .ok (jsKeys v)
  else .error "TypeError: Cannot convert undefined or null to object"

/-- Member access `v.k` where `v` may be `null`/`undefined`, in which case
JavaScript raises a `TypeError`. -/
def jsMember (v : Js) (k : String) : Except String Js :=
  if jsNotNullish v then .ok (jsGet v k)
  else .error "TypeError: Cannot read properties of null or undefined"

/-- `Object.entries(v)` for the shapes the source feeds it. -/
def jsEntries : Js → List (String × Js)
  | .obj fs => fs
  | .arr xs => (List.range xs.length).map Nat.repr |>.zip xs
  | .str s => ((List.range s.data.length).map Nat.repr).zip
      (s.data.map (fun c => Js.str (String.singleton c)))
  | _ => []

/-- Strict equality `v === '<lit>'` against a string literal. -/
def isStr (v : Js) (s : String) : Bool :=
  match v with
  | .str x => x == s
  | _ => false

/-- `needle` is an initial segment of `hay`. -/
def prefixOf : List Char → List Char → Bool
  | [], _ => true
  | _ :: _, [] => false
  | a :: as, b :: bs => a == b && prefixOf as bs

/-- `needle` occurs contiguously inside `hay`. -/
def infixOf (needle : List Char) : List Char → Bool
  | [] => prefixOf needle []
  | c :: rest => prefixOf needle (c :: rest) || infixOf needle rest

/-- Substring containment of strings. -/
def containsStr (hay needle : String) : Bool :=
  infixOf needle.data hay.data

/-- `s.startsWith(p)`. -/
def strStartsWith (s p : String) : Bool := prefixOf p.data s.data

/-- `s.slice(n)` / `String.drop`: the characters from position `n` on. -/
def strDrop (s : String) (n : Nat) : String := String.mk (s.data.drop n)

/-- `s.toLowerCase()` (character-wise lowering; the program only lowers
ASCII). -/
def jsToLower (s : String) : String := String.mk (s.data.map Char.toLower)

/-! ### A model of `JSON.parse`

The source delegates schema-text parsing to the JavaScript built-in
`JSON.parse`. We model it with an executable recursive-descent parser over
the character list; numbers are restricted to (signed) integer literals,
which covers every input the program's claims exercise. `none` models the
`SyntaxError` thrown by `JSON.parse`. -/

/-- Skip JSON whitespace. -/
def skipWs : List Char → List Char
  | c :: rest =>
    if c = ' ' ∨ c = '\n' ∨ c = '\t' ∨ c = '\r' then skipWs rest else c :: rest
  | [] => []

/-- Parse the body of a string literal after the opening quote, handling
the basic escapes; returns the decoded characters and the rest. -/
def parseStrChars : List Char → Option (List Char × List Char)
  | [] => none
  | c :: rest =>
    if c = '"' then some ([], rest)
    else if c = '\\' then
      match rest with
      | [] => none
      | e :: rest2 =>
        (match e with
          | '"' => some '"'
          | '\\' => some '\\'
          | '/' => some '/'
          | 'n' => some '\n'
          | 't' => some '\t'
          | 'r' => some '\r'
          | _ => none).bind fun d =>
        (parseStrChars rest2).bind fun p => some (d :: p.1, p.2)
    else
      (parseStrChars rest).bind fun p => some (c :: p.1, p.2)

/-- Parse a run of decimal digits (at least one) into a natural number. -/
def parseDigits (acc : Nat) : List Char → Nat × List Char
  | c :: rest =>
    if c.isDigit then parseDigits (acc * 10 + (c.toNat - '0'.toNat)) rest
    else (acc, c :: rest)
  | [] => (acc, [])

/-- Drop an expected literal word, or fail. -/
def dropLit : List Char → List Char → Option (List Char)
  | [], cs => some cs
  | l :: ls, c :: cs => if l = c then dropLit ls cs else none
  | _ :: _, [] => none

/-- Insertion of a parsed object member: JavaScript keeps the first
position of a repeated key and overwrites its value. -/
def objInsert (k : String) (v : Js) : List (String × Js) → List (String × Js)
  | [] => [(k, v)]
  | (k0, v0) :: rest =>
    if k0 = k then (k0, v) :: rest else (k0, v0) :: objInsert k v rest

mutual

/-- Parse one JSON value; the fuel strictly exceeds the input length, so
it never runs out on genuine input. -/
def parseVal : Nat → List Char → Option (Js × List Char)
  | 0, _ => none
  | fuel + 1, cs =>
    match skipWs cs with
    | [] => none
    | c :: rest =>
      if c = 'n' then (dropLit ['u', 'l', 'l'] rest).map (fun r => (Js.null, r))
      else if c = 't' then (dropLit ['r', 'u', 'e'] rest).map (fun r => (Js.bool true, r))
      else if c = 'f' then (dropLit ['a', 'l', 's', 'e'] rest).map (fun r => (Js.bool false, r))
      else if c = '"' then (parseStrChars rest).map (fun p => (Js.str (String.mk p.1), p.2))
      else if c = '-' then
        match rest with
        | d :: rest2 =>
          if d.isDigit then
            let p := parseDigits (d.toNat - '0'.toNat) rest2
            some (Js.num (-(p.1 : Int)), p.2)
          else none
        | [] => none
      else if c.isDigit then
        let p := parseDigits (c.toNat - '0'.toNat) rest
        some (Js.num (p.1 : Int), p.2)
      else if c = '[' then
        match skipWs rest with
        | ']' :: rest2 => some (Js.arr [], rest2)
        | rest2 => (parseArrItems fuel rest2).map (fun p => (Js.arr p.1, p.2))
      else if c = '\x7b' then
        match skipWs rest with
        | '\x7d' :: rest2 => some (Js.obj [], rest2)
        | rest2 => (parseObjItems fuel rest2).map (fun p => (Js.obj p.1, p.2))
      else none

/-- Parse the comma-separated items of a non-empty array, including the
closing bracket. -/
def parseArrItems : Nat → List Char → Option (List Js × List Char)
  | 0, _ => none
  | fuel + 1, cs =>
    (parseVal fuel cs).bind fun (v, rest) =>
      match skipWs rest with
      | ',' :: rest2 => (parseArrItems fuel rest2).map (fun p => (v :: p.1, p.2))
      | ']' :: rest2 => some ([v], rest2)
      | _ => none

/-- Parse the comma-separated members of a non-empty object, including the
closing brace. -/
def parseObjItems : Nat → List Char → Option (List (String × Js) × List Char)
  | 0, _ => none
  | fuel + 1, cs =>
    match skipWs cs with
    | '"' :: rest =>
      (parseStrChars rest).bind fun (kcs, rest2) =>
        match skipWs rest2 with
        | ':' :: rest3 =>
          (parseVal fuel rest3).bind fun (v, rest4) =>
            match skipWs rest4 with
            | ',' :: rest5 =>
              (parseObjItems fuel rest5).map
                (fun p => (objInsert (String.mk kcs) v p.1, p.2))
            | '\x7d' :: rest5 => some ([(String.mk kcs, v)], rest5)
            | _ => none
        | _ => none
    | _ => none

end

/-- Model of `JSON.parse`: the whole input must be consumed up to trailing
whitespace; `none` models a thrown `SyntaxError`. -/
def jsonParse (s : String) : Option Js :=
  match parseVal (s.length + 1) s.data with
  | some (v, rest) => if skipWs rest = [] then some v else none
  | none => none

/-- `typeof v === 'object'` for values `JSON.parse` can return: true for
`null`, arrays and objects. -/
def typeofObject : Js → Bool
  | .null => true
  | .arr _ => true
  | .obj _ => true
  | _ => false

/-- `parseSchema` (App.vue:54): `JSON.parse` the text, then reject the
result unless it is truthy and of `typeof` `'object'`. -/
def parseSchema (txt : String) : Except String Js :=
  match jsonParse txt with
  | none => .error "SyntaxError: Unexpected token"
  | some obj =>
    if !jsTruthy obj || !typeofObject obj then
      .error "スキーマはオブジェクトで指定してください。"
    else .ok obj

/-! ### Value synthesis (`genValue`, App.vue:61)

`faker` is an external collaborator; one draw from it is modelled by an
`Entropy` record holding the outcomes of its calls, and `Entropy.Valid`
states the collaborator's contract (`faker.date.between` returns a
calendar date between 2018-01-01 and 2025-12-31, `faker.number.int`
respects its `min`/`max` bounds). -/

/-- One record's worth of outcomes drawn from the random-data source. -/
structure Entropy where
  uuid : String
  fullName : String
  email : String
  rint : Nat
  year : Nat
  month : Nat
  day : Nat
  clock : String

/-- The collaborator contract for one entropy draw. -/
def Entropy.Valid (e : Entropy) : Prop :=
  e.rint ≤ 9999 ∧ 2018 ≤ e.year ∧ e.year ≤ 2025 ∧
  1 ≤ e.month ∧ e.month ≤ 12 ∧ 1 ≤ e.day ∧ e.day ≤ 31

instance (e : Entropy) : Decidable e.Valid := by
  unfold Entropy.Valid; infer_instance

/-- A value a generated record field can hold: string, number, or the
`null` unknown marker. -/
inductive Value where
  | str : String → Value
  | num : Int → Value
  | null : Value
deriving DecidableEq

/-- `String(n).padStart(2, '0')`. -/
def padStart2 (s : String) : String :=
  if 2 ≤ s.length then s
  else String.mk (List.replicate (2 - s.length) '0') ++ s

/-- `genValue` (App.vue:61): synthesize one value from a type-tag. The
`switch` is rendered as the equivalent strict-equality chain. -/
def genValue (e : Entropy) (typeSpec : String) : Value :=
  if strStartsWith typeSpec "date:" then
    let fmt := strDrop typeSpec 5
    let yyyy := Nat.repr e.year
    let mm := padStart2 (Nat.repr e.month)
    let dd := padStart2 (Nat.repr e.day)
    if fmt = "YYYY-MM-DD" then .str (yyyy ++ "-" ++ mm ++ "-" ++ dd)
    else if fmt = "YYYY/MM/DD" then .str (yyyy ++ "/" ++ mm ++ "/" ++ dd)
    else .str (yyyy ++ "-" ++ mm ++ "-" ++ dd ++ "T" ++ e.clock ++ "Z")
  else if typeSpec = "uuid" then .str e.uuid
  else if typeSpec = "string" then .str e.fullName
  else if typeSpec = "email" then .str (jsToLower e.email)
  else if typeSpec = "number" then .num (e.rint : Int)
  else .null

/-- `buildRecord`'s loop (App.vue:80), with the field at position `i`
consuming the entropy draw `es i`. -/
def buildRecordFrom (es : Nat → Entropy) (i : Nat) :
    List (String × String) → List (String × Value)
  | [] => []
  | (k, t) :: rest => (k, genValue (es i) t) :: buildRecordFrom es (i + 1) rest

/-- `buildRecord` (App.vue:80): one record, fields in schema order. -/
def buildRecord (es : Nat → Entropy) (schema : List (String × String)) :
    List (String × Value) :=
  buildRecordFrom es 0 schema

/-- The count computation of `onGenerate` (App.vue:91):
`Math.max(1, Math.min(10000, Number(count.value) || 1))`, where `none`
models a `NaN` result of `Number` (non-numeric input). -/
def clampCount (c : Option Int) : Int :=
  max 1 (min 10000 (match c with
    | none => 1
    | some v => if v = 0 then 1 else v))

/-- The generation loop of `onGenerate` (App.vue:92):
`Array.from({length: n}, () => buildRecord(schema))`, record `i` drawing
entropy from `es i`. -/
def generate (es : Nat → Nat → Entropy) (schema : List (String × String))
    (n : Nat) : List (List (String × Value)) :=
  (List.range n).map (fun i => buildRecord (es i) schema)

/-! ### OpenAPI reduction (App.vue:125-153) -/

/-- `mapSchemaType` (App.vue:125). At runtime its arguments are whatever
`v.type` / `v.format` hold, so it is modelled over all `Js` values; the
comparisons are JavaScript strict equality against string literals. -/
def mapSchemaType (t f : Js) : String :=
  if isStr f "uuid" then "uuid"
  else if isStr f "email" then "email"
  else if isStr f "date" || isStr f "date-time" then "date:YYYY-MM-DD"
  else if isStr t "string" then "string"
  else if isStr t "integer" || isStr t "number" then "number"
  else "string"

/-- The loop of `convertProps` (App.vue:142): `v.type` / `v.format` are
plain member accesses, which raise a `TypeError` when `v` is nullish. -/
def convertEntries : List (String × Js) → Except String (List (String × String))
  | [] => .ok []
  | (k, v) :: rest =>
    match jsMember v "type" with
    | .error e => .error e
    | .ok t =>
      match jsMember v "format" with
      | .error e => .error e
      | .ok f =>
        match convertEntries rest with
        | .error e => .error e
        | .ok r => .ok ((k, mapSchemaType t f) :: r)

/-- `convertProps` (App.vue:142): `Object.entries(props || {})` mapped
through `mapSchemaType`, preserving iteration order. -/
def convertProps (props : Js) : Except String (List (String × String)) :=
  convertEntries (jsEntries (if jsTruthy props then props else .obj []))

/-- `openApiToSchema` (App.vue:134), step for step: the `?.` accesses are
total (`jsGet`), while the two `Object.keys` calls can raise `TypeError`.
An absent first key indexes the object with the string `"undefined"`, as
JavaScript's key coercion does. -/
def openApiToSchema (doc : Js) : Except String (List (String × String)) :=
  let paths := jsGet doc "paths"
  if !jsTruthy paths then .error "OpenAPI: paths が見つかりません"
  else
    match objKeys paths with
    | .error e => .error e
    | .ok pathKeys =>
      let path := pathKeys.headD "undefined"
      let pathVal := jsGet paths path
      match objKeys pathVal with
      | .error e => .error e
      | .ok methodKeys =>
        let method := methodKeys.headD "undefined"
        let methodVal := jsGet pathVal method
        let resp := jsGet (jsGet methodVal "responses") "200"
        let schema := jsGet (jsGet (jsGet resp "content") "application/json") "schema"
        if !jsTruthy schema then .error "application/json の schema が見つかりません"
        else
          if isStr (jsGet schema "type") "array" &&
              jsTruthy (jsGet (jsGet schema "items") "properties") then
            convertProps (jsGet (jsGet schema "items") "properties")
          else if isStr (jsGet schema "type") "object" &&
              jsTruthy (jsGet schema "properties") then
            convertProps (jsGet schema "properties")
          else .error "未対応のOpenAPI schema（MVP簡易対応）"

/-- The value of the first path of a document, as `openApiToSchema`
navigates to it (total rendering, for stating properties). -/
def oaFirstPathVal (doc : Js) : Js :=
  let paths := jsGet doc "paths"
  jsGet paths ((jsKeys paths).headD "undefined")

/-- The `responses.200.content.application/json.schema` node under the
first path's first method (total rendering, for stating properties). -/
def oaSchemaNode (doc : Js) : Js :=
  let pv := oaFirstPathVal doc
  let mv := jsGet pv ((jsKeys pv).headD "undefined")
  jsGet (jsGet (jsGet (jsGet (jsGet mv "responses") "200") "content")
    "application/json") "schema"

/-! ### JSON serialization and the MSW handler renderer (App.vue:34-51) -/

/-- JSON string escaping as `JSON.stringify` performs it (the escapes the
program's data can contain). -/
def escapeChar (c : Char) : String :=
  if c = '"' then "\\\""
  else if c = '\\' then "\\\\"
  else if c = '\n' then "\\n"
  else if c = '\t' then "\\t"
  else if c = '\r' then "\\r"
  else String.singleton c

/-- A JSON string literal for `s`. -/
def quoteJson (s : String) : String :=
  "\"" ++ String.join (s.data.map escapeChar) ++ "\""

/-- Serialization of one generated value. -/
def stringifyValue : Value → String
  | .str s => quoteJson s
  | .num n => n.repr
  | .null => "null"

/-- `JSON.stringify(record, null, 2)` for one record nested at one level
of indentation inside the array. -/
def stringifyRecord (ind : String) (r : List (String × Value)) : String :=
  match r with
  | [] => "\x7b\x7d"
  | _ => "\x7b\n" ++ String.intercalate ",\n"
      (r.map (fun p => ind ++ "  " ++ quoteJson p.1 ++ ": " ++ stringifyValue p.2)) ++
      "\n" ++ ind ++ "\x7d"

/-- `JSON.stringify(result, null, 2)`: the pretty-printed record array
embedded in the handler snippet and the JSON download. -/
def stringifyRecords (rs : List (List (String × Value))) : String :=
  match rs with
  | [] => "[]"
  | _ => "[\n" ++ String.intercalate ",\n"
      (rs.map (fun r => "  " ++ stringifyRecord "  " r)) ++ "\n]"

/-- `JSON.stringify(schema, null, 2)` written into the schema text field
after an OpenAPI conversion (App.vue:164). -/
def stringifySchema (fs : List (String × String)) : String :=
  match fs with
  | [] => "\x7b\x7d"
  | _ => "\x7b\n" ++ String.intercalate ",\n"
      (fs.map (fun p => "  " ++ quoteJson p.1 ++ ": " ++ quoteJson p.2)) ++ "\n\x7d"

/-- The HTTP method select (App.vue:13). -/
inductive HttpMethod where
  | GET : HttpMethod
  | POST : HttpMethod
  | PUT : HttpMethod
  | DELETE : HttpMethod

/-- The method's text as held by the select control. -/
def HttpMethod.toStr : HttpMethod → String
  | .GET => "GET"
  | .POST => "POST"
  | .PUT => "PUT"
  | .DELETE => "DELETE"

/-- `mswText` (App.vue:39): the rendered MSW handler snippet, or the
placeholder comment while no result exists. -/
def mswText (result : Option (List (List (String × Value))))
    (endpoint : String) (method : HttpMethod) : String :=
  match result with
  | none => "// 生成後にここに出力されます"
  | some recs =>
    let data := stringifyRecords recs
    let ep := if endpoint.isEmpty then "/" else endpoint
    let m := jsToLower method.toStr
    "import \x7b rest \x7d from 'msw'\n\nexport const handlers = [\n  rest." ++
      m ++ "('" ++ ep ++ "', (req, res, ctx) => \x7b\n    return res(ctx.json(" ++
      data ++ "))\n  \x7d)\n]"

/-! ### The OpenAPI upload handler's state effect (App.vue:155-170) -/

/-- The two pieces of reactive state `onOpenApiUpload` can write. -/
structure UiState where
  schemaText : String
  error : String

/-- `onOpenApiUpload`'s reader callback (App.vue:159): `parsed` is the
outcome of `yaml.load` / `JSON.parse` on the file text (an external
collaborator; `.error` models a thrown parse failure). On success of the
conversion the schema text is replaced; on any failure only the error
message is written. -/
def onOpenApiUpload (st : UiState) (parsed : Except String Js) : UiState :=
  match parsed with
  | .error msg => { st with error := "OpenAPI変換失敗: " ++ msg }
  | .ok doc =>
    match openApiToSchema doc with
    | .error msg => { st with error := "OpenAPI変換失敗: " ++ msg }
    | .ok schema => { st with schemaText := stringifySchema schema }

/-! ### Specification-side observations

Executable predicates used only to state properties: a date-pattern
matcher for `\d\x7b4\x7d-\d\x7b2\x7d-\d\x7b2\x7d`-style patterns, and
substring containment. -/

/-- `s` consists of exactly ten characters `DDDD s DD s DD` with `D` a
decimal digit and `s` the given separator. -/
def matchesDatePat (sep : Char) (s : String) : Bool :=
  match s.data with
  | [a, b, c, d, s1, e, f, s2, g, h] =>
    a.isDigit && b.isDigit && c.isDigit && d.isDigit && s1 == sep &&
    e.isDigit && f.isDigit && s2 == sep && g.isDigit && h.isDigit
  | _ => false

/-! ### Concrete inputs used in the claims -/

/-- The OpenAPI document of the `/pets` end-to-end example. -/
def petsDoc : Js :=
  .obj [("paths", .obj [("/pets", .obj [("get", .obj [("responses",
    .obj [("200", .obj [("content", .obj [("application/json", .obj [("schema",
      .obj [("type", .str "array"),
            ("items", .obj [("properties",
              .obj [("id", .obj [("type", .str "string"), ("format", .str "uuid")]),
                    ("age", .obj [("type", .str "integer")])])])])])])])])])])])]

/-- A document whose first path's first method carries no
`responses.200.content.application/json.schema` chain. -/
def docNoSchema : Js :=
  .obj [("paths", .obj [("/pets", .obj [("get", .obj [])])])]

/-- A document whose navigated schema node is a truthy non-object, hence
neither supported shape. -/
def docBadShape : Js :=
  .obj [("paths", .obj [("/pets", .obj [("get", .obj [("responses",
    .obj [("200", .obj [("content", .obj [("application/json",
      .obj [("schema", .str "weird")])])])])])])])]

/-- A concrete entropy draw satisfying the collaborator contract. -/
def entropy0 : Entropy :=
  { uuid := "00000000-0000-4000-8000-000000000000"
    fullName := "Alex Doe"
    email := "A@Example.com"
    rint := 5
    year := 2020
    month := 3
    day := 7
    clock := "00:00:00.000" }

/-- The five type-tags `genValue` recognizes (synthesizes a non-null
value for). -/
def recognizedTags : List String :=
  ["uuid", "email", "date:YYYY-MM-DD", "string", "number"]

/-! ## Helper lemmas -/

theorem buildRecordFrom_keys (es : Nat → Entropy) (S : List (String × String)) :
    ∀ i, (buildRecordFrom es i S).map Prod.fst = S.map Prod.fst := by
  induction S with
  | nil => intro i; rfl
  | cons p rest ih =>
    intro i
    cases p
    simp [buildRecordFrom, ih]

theorem generate_keys (es : Nat → Nat → Entropy) (S : List (String × String)) (n : Nat) :
    (generate es S n).map (fun r => r.map Prod.fst) = List.replicate n (S.map Prod.fst) := by
  simp only [generate, List.map_map]
  have h : ((fun r => List.map Prod.fst r) ∘ fun i => buildRecord (es i) S) =
      fun _ => S.map Prod.fst := by
    funext i
    simp [Function.comp, buildRecord, buildRecordFrom_keys]
  rw [h, List.map_const', List.length_range]

theorem jsTruthy_notNullish (v : Js) (h : jsTruthy v = true) : jsNotNullish v = true := by
  cases v <;> simp_all [jsTruthy, jsNotNullish]

theorem repr_year_digits : ∀ y : Nat, 2018 ≤ y → y ≤ 2025 →
    (Nat.repr y).data.length = 4 ∧ ((Nat.repr y).data.all Char.isDigit) = true := by
  intro y h1 h2
  interval_cases y <;> exact ⟨by decide, by decide⟩

theorem pad2_digits : ∀ m : Nat, 1 ≤ m → m ≤ 31 →
    (padStart2 (Nat.repr m)).data.length = 2 ∧
    ((padStart2 (Nat.repr m)).data.all Char.isDigit) = true := by
  intro m h1 h2
  interval_cases m <;> exact ⟨by decide, by decide⟩

theorem dash_data (a b c : String) :
    (a ++ "-" ++ b ++ "-" ++ c).data = a.data ++ '-' :: (b.data ++ '-' :: c.data) := by
  have h : ("-" : String).data = ['-'] := rfl
  simp [String.data_append, h]

theorem slash_data (a b c : String) :
    (a ++ "/" ++ b ++ "/" ++ c).data = a.data ++ '/' :: (b.data ++ '/' :: c.data) := by
  have h : ("/" : String).data = ['/'] := rfl
  simp [String.data_append, h]

theorem matchesDatePat_parts (sep : Char) (Y M D : List Char)
    (hY : Y.length = 4) (hYd : Y.all Char.isDigit = true)
    (hM : M.length = 2) (hMd : M.all Char.isDigit = true)
    (hD : D.length = 2) (hDd : D.all Char.isDigit = true) :
    matchesDatePat sep (String.mk (Y ++ sep :: (M ++ sep :: D))) = true := by
  rcases Y with _ | ⟨a, _ | ⟨b, _ | ⟨c, _ | ⟨d, _ | ⟨x, Y⟩⟩⟩⟩⟩ <;> simp_all
  rcases M with _ | ⟨e, _ | ⟨f, _ | ⟨x, M⟩⟩⟩ <;> simp_all
  rcases D with _ | ⟨g, _ | ⟨h, _ | ⟨x, D⟩⟩⟩ <;> simp_all [matchesDatePat]

theorem prefixOf_append (n b : List Char) : prefixOf n (n ++ b) = true := by
  induction n with
  | nil => rfl
  | cons c cs ih => simp [prefixOf, ih]

theorem infixOf_of_prefix (n hay : List Char) (h : prefixOf n hay = true) :
    infixOf n hay = true := by
  cases hay <;> simp [infixOf, h]

theorem infixOf_append (a n b : List Char) : infixOf n (a ++ (n ++ b)) = true := by
  induction a with
  | nil => exact infixOf_of_prefix _ _ (prefixOf_append n b)
  | cons c cs ih => simp [infixOf, ih]

theorem mswText_some_data (recs : List (List (String × Value))) (ep : String)
    (m : HttpMethod) :
    (mswText (some recs) ep m).data =
      ("import \x7b rest \x7d from 'msw'\n\nexport const handlers = [\n  " : String).data ++
      (("rest." ++ jsToLower m.toStr ++ "('" ++
          (if ep.isEmpty then "/" else ep) ++ "'" : String).data ++
       ((", (req, res, ctx) => \x7b\n    return res(ctx.json(" : String).data ++
        ((stringifyRecords recs).data ++ ("))\n  \x7d)\n]" : String).data))) := by
  have e1 : ("import \x7b rest \x7d from 'msw'\n\nexport const handlers = [\n  rest." : String) =
    "import \x7b rest \x7d from 'msw'\n\nexport const handlers = [\n  " ++ "rest." := rfl
  have e2 : ("', (req, res, ctx) => \x7b\n    return res(ctx.json(" : String) =
    "'" ++ ", (req, res, ctx) => \x7b\n    return res(ctx.json(" := rfl
  simp only [mswText, e1, e2]
  simp [String.data_append, List.append_assoc]

theorem mapSchemaType_mem (t f : Js) : mapSchemaType t f ∈ recognizedTags := by
  unfold mapSchemaType recognizedTags
  split_ifs <;> simp

theorem convertEntries_mem : ∀ (l : List (String × Js)) (fs : List (String × String)),
    convertEntries l = .ok fs → ∀ p ∈ fs, p.2 ∈ recognizedTags := by
  intro l
  induction l with
  | nil =>
    intro fs h p hp
    simp only [convertEntries] at h
    cases h
    simp at hp
  | cons kv rest ih =>
    intro fs h p hp
    obtain ⟨k, v⟩ := kv
    simp only [convertEntries] at h
    cases hm : jsMember v "type" <;> rw [hm] at h
    · cases h
    case ok t =>
      cases hf : jsMember v "format" <;> rw [hf] at h
      · cases h
      case ok f =>
        cases hc : convertEntries rest <;> rw [hc] at h
        · cases h
        case ok r =>
          cases h
          rcases List.mem_cons.mp hp with rfl | hp2
          · exact mapSchemaType_mem t f
          · exact ih r hc p hp2

theorem openApiToSchema_mem (doc : Js) (fs : List (String × String))
    (h : openApiToSchema doc = .ok fs) : ∀ p ∈ fs, p.2 ∈ recognizedTags := by
  simp only [openApiToSchema] at h
  split at h
  · cases h
  · split at h
    · cases h
    · split at h
      · cases h
      · split at h
        · cases h
        · split at h
          · exact convertEntries_mem _ _ h
          · split at h
            · exact convertEntries_mem _ _ h
            · cases h

theorem genValue_recognized_not_null (e : Entropy) (tag : String)
    (h : tag ∈ recognizedTags) : genValue e tag ≠ .null := by
  simp only [recognizedTags, List.mem_cons, List.not_mem_nil, or_false] at h
  rcases h with rfl | rfl | rfl | rfl | rfl
  · rw [show genValue e "uuid" = .str e.uuid from rfl]; simp
  · rw [show genValue e "email" = .str (jsToLower e.email) from rfl]; simp
  · rw [show genValue e "date:YYYY-MM-DD" = .str (Nat.repr e.year ++ "-" ++
      padStart2 (Nat.repr e.month) ++ "-" ++ padStart2 (Nat.repr e.day)) from rfl]; simp
  · rw [show genValue e "string" = .str e.fullName from rfl]; simp
  · rw [show genValue e "number" = .num (e.rint : Int) from rfl]; simp

/-! ## Claims -/

/-- C1 (counterexample): the claim says `Schema Parser("[1,2,3]")` fails
with a `SchemaFormatError`; on the code it succeeds, because
`typeof [1,2,3] === 'object'` holds in JavaScript and the parsed array is
truthy, so the guard `!obj || typeof obj !== 'object'` does not fire. -/
theorem parseSchema_array_accepted_cex :
    parseSchema "[1,2,3]" = .ok (Js.arr [Js.num 1, Js.num 2, Js.num 3]) := rfl

/-- C1 (amended): the Schema Parser fails with a `SchemaFormatError`
whenever the parsed value is absent (invalid JSON) or is falsy or of
non-object `typeof` (null, booleans, numbers, strings); arrays pass the
check and are returned as parsed; on success it returns the parsed
field-to-type-tag mapping preserving field order as encountered. -/
theorem parseSchema_rejects_nonobjects :
    (∀ txt, jsonParse txt = none →
      parseSchema txt = .error "SyntaxError: Unexpected token") ∧
    (∀ txt v, jsonParse txt = some v →
      (jsTruthy v = false ∨ typeofObject v = false) →
      parseSchema txt = .error "スキーマはオブジェクトで指定してください。") ∧
    (∀ txt v, jsonParse txt = some v → jsTruthy v = true → typeofObject v = true →
      parseSchema txt = .ok v) ∧
    parseSchema "\x7b\"a\":\"uuid\"\x7d" = .ok (Js.obj [("a", Js.str "uuid")]) := by
  refine ⟨?_, ?_, ?_, rfl⟩
  · intro txt hp
    simp [parseSchema, hp]
  · intro txt v hp h
    rcases h with h | h <;> simp [parseSchema, hp, h]
  · intro txt v hp ht ho
    simp [parseSchema, hp, ht, ho]

/-- C1 (witness): the amended theorem applied to the text `"null"`, whose
parse is falsy and rejected, and to `"not json"`, which does not parse. -/
theorem parseSchema_rejects_nonobjects_witness :
    jsonParse "null" = some Js.null ∧
    parseSchema "null" = .error "スキーマはオブジェクトで指定してください。" ∧
    jsonParse "not json" = none ∧
    parseSchema "not json" = .error "SyntaxError: Unexpected token" :=
  ⟨rfl, parseSchema_rejects_nonobjects.2.1 "null" Js.null rfl (Or.inl rfl),
   rfl, parseSchema_rejects_nonobjects.1 "not json" rfl⟩

/-- C2: for every flat schema `S` and count `n` in `[1,10000]`, the count
survives the clamp unchanged and `generate` returns exactly `n` records
whose key sequences all equal `S`'s field order. -/
theorem generate_count_and_fields (es : Nat → Nat → Entropy)
    (S : List (String × String)) (n : Int) (h1 : 1 ≤ n) (h2 : n ≤ 10000) :
    clampCount (some n) = n ∧
    (generate es S n.toNat).length = n.toNat ∧
    (generate es S n.toNat).map (fun r => r.map Prod.fst) =
      List.replicate n.toNat (S.map Prod.fst) := by
  refine ⟨?_, ?_, generate_keys es S n.toNat⟩
  · have h0 : ¬ n = 0 := by omega
    simp only [clampCount, h0, if_false]
    rw [Int.min_def, Int.max_def]
    split_ifs <;> omega
  · simp [generate]

/-- C2 (witness): three records over a two-field schema. -/
theorem generate_count_and_fields_witness :
    (1 : Int) ≤ 3 ∧ (3 : Int) ≤ 10000 ∧
    (clampCount (some 3) = 3 ∧
     (generate (fun _ _ => entropy0) [("a", "uuid"), ("b", "number")]
       (3 : Int).toNat).length = (3 : Int).toNat ∧
     (generate (fun _ _ => entropy0) [("a", "uuid"), ("b", "number")]
       (3 : Int).toNat).map (fun r => r.map Prod.fst) =
       List.replicate (3 : Int).toNat
         (([("a", "uuid"), ("b", "number")] : List (String × String)).map Prod.fst)) :=
  ⟨by decide, by decide,
   generate_count_and_fields (fun _ _ => entropy0) [("a", "uuid"), ("b", "number")]
     3 (by decide) (by decide)⟩

/-- C3: the requested count is clamped to the nearest bound of
`[1,10000]`: `0 → 1`, `999999 → 10000`, non-numeric (`NaN`) `→ 1`, any
`n < 1 → 1`, any `n > 10000 → 10000`; and the generation loop produces
exactly the clamped number of records. -/
theorem clampCount_bounds :
    clampCount (some 0) = 1 ∧ clampCount (some 999999) = 10000 ∧
    clampCount none = 1 ∧
    (∀ n : Int, n < 1 → clampCount (some n) = 1) ∧
    (∀ n : Int, 10000 < n → clampCount (some n) = 10000) ∧
    (∀ es S c, (generate es S (clampCount c).toNat).length = (clampCount c).toNat) := by
  refine ⟨by decide, by decide, by decide, ?_, ?_, ?_⟩
  · intro n h
    by_cases h0 : n = 0
    · simp [clampCount, h0]
    · simp only [clampCount, h0, if_false]
      rw [Int.min_def, Int.max_def]
      split_ifs <;> omega
  · intro n h
    have h0 : ¬ n = 0 := by omega
    simp only [clampCount, h0, if_false]
    rw [Int.min_def, Int.max_def]
    split_ifs <;> omega
  · intro es S c
    simp [generate]

/-- C3 (witness): the clamp theorem applied at `-5` and `20000`. -/
theorem clampCount_bounds_witness :
    (-5 : Int) < 1 ∧ clampCount (some (-5)) = 1 ∧
    (10000 : Int) < 20000 ∧ clampCount (some 20000) = 10000 :=
  ⟨by decide, clampCount_bounds.2.2.2.1 (-5) (by decide),
   by decide, clampCount_bounds.2.2.2.2.1 20000 (by decide)⟩

/-- C4: the Value Synthesizer is total (a total function here) and, for
every entropy draw satisfying the collaborator contract: `"number"`
yields an integer in `[0, 9999]`; `"date:YYYY-MM-DD"` yields a string
matching the ten-character digit pattern with `-` separators;
`"date:YYYY/MM/DD"` likewise with `/`; and every tag that neither starts
with `date:` nor is one of the four exact tags yields the `null` unknown
marker rather than failing. -/
theorem genValue_total_spec (e : Entropy) (h : e.Valid) :
    (∃ k : Int, genValue e "number" = .num k ∧ 0 ≤ k ∧ k ≤ 9999) ∧
    (∃ s, genValue e "date:YYYY-MM-DD" = .str s ∧ matchesDatePat '-' s = true) ∧
    (∃ s, genValue e "date:YYYY/MM/DD" = .str s ∧ matchesDatePat '/' s = true) ∧
    (∀ t : String, strStartsWith t "date:" = false →
      t ≠ "uuid" → t ≠ "string" → t ≠ "email" → t ≠ "number" →
      genValue e t = .null) := by
  obtain ⟨hr, hy1, hy2, hm1, hm2, hd1, hd2⟩ := h
  obtain ⟨hYl, hYd⟩ := repr_year_digits e.year hy1 hy2
  obtain ⟨hMl, hMd⟩ := pad2_digits e.month hm1 (by omega)
  obtain ⟨hDl, hDd⟩ := pad2_digits e.day hd1 hd2
  refine ⟨⟨(e.rint : Int), rfl, by omega, by omega⟩, ?_, ?_, ?_⟩
  · refine ⟨_, rfl, ?_⟩
    have hd := dash_data (Nat.repr e.year) (padStart2 (Nat.repr e.month))
      (padStart2 (Nat.repr e.day))
    rw [show (Nat.repr e.year ++ "-" ++ padStart2 (Nat.repr e.month) ++ "-" ++
        padStart2 (Nat.repr e.day)) =
      String.mk ((Nat.repr e.year ++ "-" ++ padStart2 (Nat.repr e.month) ++ "-" ++
        padStart2 (Nat.repr e.day)).data) from rfl, hd]
    exact matchesDatePat_parts '-' _ _ _ hYl hYd hMl hMd hDl hDd
  · refine ⟨_, rfl, ?_⟩
    have hd := slash_data (Nat.repr e.year) (padStart2 (Nat.repr e.month))
      (padStart2 (Nat.repr e.day))
    rw [show (Nat.repr e.year ++ "/" ++ padStart2 (Nat.repr e.month) ++ "/" ++
        padStart2 (Nat.repr e.day)) =
      String.mk ((Nat.repr e.year ++ "/" ++ padStart2 (Nat.repr e.month) ++ "/" ++
        padStart2 (Nat.repr e.day)).data) from rfl, hd]
    exact matchesDatePat_parts '/' _ _ _ hYl hYd hMl hMd hDl hDd
  · intro t hst h1 h2 h3 h4
    simp [genValue, hst, h1, h2, h3, h4]

/-- C4 (witness): the synthesizer theorem applied at a concrete valid
entropy draw, plus a concrete unrecognized tag. -/
theorem genValue_total_spec_witness :
    entropy0.Valid ∧
    ((∃ k : Int, genValue entropy0 "number" = .num k ∧ 0 ≤ k ∧ k ≤ 9999) ∧
     (∃ s, genValue entropy0 "date:YYYY-MM-DD" = .str s ∧ matchesDatePat '-' s = true) ∧
     (∃ s, genValue entropy0 "date:YYYY/MM/DD" = .str s ∧ matchesDatePat '/' s = true) ∧
     (∀ t : String, strStartsWith t "date:" = false →
       t ≠ "uuid" → t ≠ "string" → t ≠ "email" → t ≠ "number" →
       genValue entropy0 t = .null)) ∧
    strStartsWith "unknown-tag" "date:" = false ∧
    genValue entropy0 "unknown-tag" = .null := by
  have h := genValue_total_spec entropy0 (by decide)
  exact ⟨by decide, h,
    by decide, h.2.2.2 "unknown-tag" (by decide) (by decide) (by decide) (by decide) (by decide)⟩

/-- C5: on the `/pets` OpenAPI document (array schema with a uuid-format
string `id` and an integer `age`), the Reducer yields exactly
`id ↦ "uuid", age ↦ "number"`, in that order. -/
theorem openApiToSchema_pets_example :
    openApiToSchema petsDoc = .ok [("id", "uuid"), ("age", "number")] := rfl

/-- C6 (counterexample): the claim says every document whose first path's
first method lacks the `responses.200.content.application/json.schema`
chain fails with the "application/json schema not found" error. For a
document whose first path maps to `null` there is no first method and the
chain is absent, yet the code reaches `Object.keys(null)` and raises a
generic `TypeError` instead of the descriptive error. -/
theorem openApiToSchema_typeerror_cex :
    openApiToSchema (Js.obj [("paths", Js.obj [("/pets", Js.null)])]) =
      .error "TypeError: Cannot convert undefined or null to object" ∧
    ("TypeError: Cannot convert undefined or null to object" : String) ≠
      "application/json の schema が見つかりません" ∧
    ("TypeError: Cannot convert undefined or null to object" : String) ≠
      "OpenAPI: paths が見つかりません" ∧
    ("TypeError: Cannot convert undefined or null to object" : String) ≠
      "未対応のOpenAPI schema（MVP簡易対応）" :=
  ⟨rfl, by decide, by decide, by decide⟩

/-- C6 (amended): the Reducer fails with the descriptive "paths not
found" error on every document lacking a `paths` node; it fails with the
"application/json schema not found" error on every document whose first
path's value is itself a keyable object (not null/undefined, so the
method-key listing does not raise) but whose navigated schema node is
absent/falsy; and it fails with the unsupported-shape error whenever the
navigated schema node is present but neither the supported array form nor
the supported object form. When the first path's value is null/undefined
(e.g. an empty `paths`), a generic `TypeError` is raised instead. -/
theorem openApiToSchema_errors :
    (∀ doc : Js, jsGet doc "paths" = Js.undefined →
      openApiToSchema doc = .error "OpenAPI: paths が見つかりません") ∧
    (∀ doc : Js, jsTruthy (jsGet doc "paths") = true →
      jsNotNullish (oaFirstPathVal doc) = true →
      jsTruthy (oaSchemaNode doc) = false →
      openApiToSchema doc = .error "application/json の schema が見つかりません") ∧
    (∀ doc : Js, jsTruthy (jsGet doc "paths") = true →
      jsNotNullish (oaFirstPathVal doc) = true →
      jsTruthy (oaSchemaNode doc) = true →
      (isStr (jsGet (oaSchemaNode doc) "type") "array" &&
        jsTruthy (jsGet (jsGet (oaSchemaNode doc) "items") "properties")) = false →
      (isStr (jsGet (oaSchemaNode doc) "type") "object" &&
        jsTruthy (jsGet (oaSchemaNode doc) "properties")) = false →
      openApiToSchema doc = .error "未対応のOpenAPI schema（MVP簡易対応）") := by
  refine ⟨?_, ?_, ?_⟩
  · intro doc hp
    simp [openApiToSchema, hp, jsTruthy]
  · intro doc hp hv hs
    simp only [oaFirstPathVal, List.headD_eq_head?] at hv
    simp only [oaSchemaNode, oaFirstPathVal, List.headD_eq_head?] at hs
    simp [openApiToSchema, objKeys, hp, jsTruthy_notNullish _ hp, hv, hs]
  · intro doc hp hv hs ha ho
    simp only [oaFirstPathVal, List.headD_eq_head?] at hv
    simp only [oaSchemaNode, oaFirstPathVal, List.headD_eq_head?] at hs ha ho
    simp only [Bool.and_eq_false_iff] at ha ho
    simp [openApiToSchema, objKeys, hp, jsTruthy_notNullish _ hp, hv, hs]
    rw [if_neg (by rcases ha with h | h <;> simp [h]),
        if_neg (by rcases ho with h | h <;> simp [h])]

/-- C6 (witness): the amended theorem applied to a document with no
`paths`, to one whose first method has no schema chain, and to one with
an unsupported schema shape. -/
theorem openApiToSchema_errors_witness :
    (jsGet Js.null "paths" = Js.undefined ∧
     openApiToSchema Js.null = .error "OpenAPI: paths が見つかりません") ∧
    (jsTruthy (jsGet docNoSchema "paths") = true ∧
     jsNotNullish (oaFirstPathVal docNoSchema) = true ∧
     jsTruthy (oaSchemaNode docNoSchema) = false ∧
     openApiToSchema docNoSchema =
       .error "application/json の schema が見つかりません") ∧
    (jsTruthy (jsGet docBadShape "paths") = true ∧
     jsNotNullish (oaFirstPathVal docBadShape) = true ∧
     jsTruthy (oaSchemaNode docBadShape) = true ∧
     openApiToSchema docBadShape =
       .error "未対応のOpenAPI schema（MVP簡易対応）") :=
  ⟨⟨rfl, openApiToSchema_errors.1 Js.null rfl⟩,
   ⟨rfl, rfl, rfl, openApiToSchema_errors.2.1 docNoSchema rfl rfl rfl⟩,
   ⟨rfl, rfl, rfl,
    openApiToSchema_errors.2.2 docBadShape rfl rfl rfl (by rfl) (by rfl)⟩⟩

/-- C7: `mapSchemaType` is a total function applying its rules
top-to-bottom: format `uuid`, `email`, `date`/`date-time` decide the tag
regardless of type; otherwise type `string` gives `string`, type
`integer`/`number` gives `number`, and anything else (including a missing
type) falls back to `string`. -/
theorem mapSchemaType_precedence :
    (∀ t : Js, mapSchemaType t (.str "uuid") = "uuid") ∧
    (∀ t : Js, mapSchemaType t (.str "email") = "email") ∧
    (∀ t : Js, mapSchemaType t (.str "date") = "date:YYYY-MM-DD" ∧
               mapSchemaType t (.str "date-time") = "date:YYYY-MM-DD") ∧
    (∀ f : Js,
      (isStr f "uuid" || isStr f "email" || isStr f "date" || isStr f "date-time") = false →
      mapSchemaType (.str "string") f = "string" ∧
      mapSchemaType (.str "integer") f = "number" ∧
      mapSchemaType (.str "number") f = "number") ∧
    (∀ t f : Js,
      (isStr f "uuid" || isStr f "email" || isStr f "date" || isStr f "date-time") = false →
      (isStr t "string" || isStr t "integer" || isStr t "number") = false →
      mapSchemaType t f = "string") := by
  refine ⟨?_, ?_, ?_, ?_, ?_⟩
  · intro t; simp [mapSchemaType, isStr]
  · intro t; simp [mapSchemaType, isStr]
  · intro t; constructor <;> simp [mapSchemaType, isStr]
  · intro f hf
    simp only [Bool.or_eq_false_iff] at hf
    obtain ⟨⟨⟨h1, h2⟩, h3⟩, h4⟩ := hf
    refine ⟨?_, ?_, ?_⟩ <;> simp [mapSchemaType, h1, h2, h3, h4] <;> decide
  · intro t f hf ht
    simp only [Bool.or_eq_false_iff] at hf ht
    obtain ⟨⟨⟨h1, h2⟩, h3⟩, h4⟩ := hf
    obtain ⟨⟨h5, h6⟩, h7⟩ := ht
    simp [mapSchemaType, h1, h2, h3, h4, h5, h6, h7]

/-- C7 (witness): the fallback rule applied at `undefined`/`undefined`
(both properties missing) and the type rules applied at format
`undefined`. -/
theorem mapSchemaType_precedence_witness :
    ((isStr Js.undefined "uuid" || isStr Js.undefined "email" ||
      isStr Js.undefined "date" || isStr Js.undefined "date-time") = false) ∧
    ((isStr Js.undefined "string" || isStr Js.undefined "integer" ||
      isStr Js.undefined "number") = false) ∧
    mapSchemaType Js.undefined Js.undefined = "string" ∧
    (mapSchemaType (.str "string") Js.undefined = "string" ∧
     mapSchemaType (.str "integer") Js.undefined = "number" ∧
     mapSchemaType (.str "number") Js.undefined = "number") :=
  ⟨by decide, by decide,
   mapSchemaType_precedence.2.2.2.2 Js.undefined Js.undefined (by decide) (by decide),
   mapSchemaType_precedence.2.2.2.1 Js.undefined (by decide)⟩

/-- C8: when the OpenAPI conversion fails with a shape error on any
document, the schema text field is exactly what it was before the failed
conversion; only the error message (with its prefixed label) is written. -/
theorem onOpenApiUpload_frame (st : UiState) (doc : Js) (msg : String)
    (h : openApiToSchema doc = .error msg) :
    (onOpenApiUpload st (.ok doc)).schemaText = st.schemaText ∧
    (onOpenApiUpload st (.ok doc)).error = "OpenAPI変換失敗: " ++ msg := by
  simp [onOpenApiUpload, h]

/-- C8 (witness): the frame theorem applied to a held schema text and a
document with no `paths` node. -/
theorem onOpenApiUpload_frame_witness :
    openApiToSchema Js.null = .error "OpenAPI: paths が見つかりません" ∧
    ((onOpenApiUpload ⟨"previous schema", ""⟩ (.ok Js.null)).schemaText =
      ("previous schema" : String) ∧
     (onOpenApiUpload ⟨"previous schema", ""⟩ (.ok Js.null)).error =
      "OpenAPI変換失敗: " ++ "OpenAPI: paths が見つかりません") :=
  ⟨rfl, onOpenApiUpload_frame ⟨"previous schema", ""⟩ Js.null
    "OpenAPI: paths が見つかりません" rfl⟩

/-- C9: the Mock-Handler Renderer is a total function: with no record
sequence it returns the placeholder comment; with a record sequence it
emits a snippet containing the handler registration
`rest.<method lower-cased>('<endpoint>'` (an empty endpoint defaulting to
`/`) and embedding the full serialized record sequence; and for the
schema `m ↦ string` with count 3 the embedded sequence is exactly three
records whose single key is `m`. -/
theorem mswText_renders (ep : String) (m : HttpMethod)
    (recs : List (List (String × Value))) (es : Nat → Nat → Entropy) :
    mswText none ep m = "// 生成後にここに出力されます" ∧
    containsStr (mswText (some recs) ep m)
      ("rest." ++ jsToLower m.toStr ++ "('" ++
        (if ep.isEmpty then "/" else ep) ++ "'") = true ∧
    containsStr (mswText (some recs) ep m) (stringifyRecords recs) = true ∧
    (generate es [("m", "string")] 3).length = 3 ∧
    (generate es [("m", "string")] 3).map (fun r => r.map Prod.fst) =
      [["m"], ["m"], ["m"]] := by
  refine ⟨rfl, ?_, ?_, by simp [generate], ?_⟩
  · unfold containsStr
    rw [mswText_some_data]
    exact infixOf_append _ _ _
  · unfold containsStr
    rw [mswText_some_data]
    have h := infixOf_append
      (("import \x7b rest \x7d from 'msw'\n\nexport const handlers = [\n  " : String).data ++
       ("rest." ++ jsToLower m.toStr ++ "('" ++
         (if ep.isEmpty then "/" else ep) ++ "'" : String).data ++
       (", (req, res, ctx) => \x7b\n    return res(ctx.json(" : String).data)
      (stringifyRecords recs).data
      (("))\n  \x7d)\n]" : String).data)
    simpa [List.append_assoc] using h
  · rw [generate_keys]; rfl

/-- C10: every type-tag `mapSchemaType` produces — and hence every tag in
any schema the Reducer emits — is one of the five recognized tags, and
the Value Synthesizer applied to any of those five tags never returns the
`null` unknown marker. -/
theorem reducer_tags_recognized :
    (∀ t f : Js, mapSchemaType t f ∈ recognizedTags) ∧
    (∀ (doc : Js) (fs : List (String × String)), openApiToSchema doc = .ok fs →
      ∀ p ∈ fs, p.2 ∈ recognizedTags) ∧
    (∀ (e : Entropy) (tag : String), tag ∈ recognizedTags →
      genValue e tag ≠ .null) :=
  ⟨mapSchemaType_mem, openApiToSchema_mem, genValue_recognized_not_null⟩

/-- C10 (witness): the invariant applied to the `/pets` document's
reduced schema and to the tag `uuid` at a concrete entropy draw. -/
theorem reducer_tags_recognized_witness :
    (("id", "uuid") : String × String) ∈ [("id", "uuid"), ("age", "number")] ∧
    ("uuid" : String) ∈ recognizedTags ∧
    genValue entropy0 "uuid" ≠ .null :=
  ⟨by decide,
   reducer_tags_recognized.2.1 petsDoc [("id", "uuid"), ("age", "number")]
     rfl ("id", "uuid") (by decide),
   reducer_tags_recognized.2.2 entropy0 "uuid" (by decide)⟩

end ApiMock
